import Mathlib

/-!
Shallow embedding of the identity-and-session core of the Mystry-Message
application: the mongoose `User` model (src/model/user.ts), the sign-up
route handler (`POST`), the NextAuth credentials `authorize` function and
the `jwt` / `session` callbacks, the `sendVerificationEmail` helper, and
the zod `verifySchema`.

Modelling conventions:
- instants are milliseconds since the epoch, as `Nat`;
- `bcrypt.hash` and `bcrypt.compare` are abstract function parameters
  (`hash : String → String`, `compare : String → String → Bool`);
- `Math.random()` is a rational parameter `q` with `0 ≤ q < 1`;
- the MongoDB collection is a `List User`; `findOne` is `List.find?`
  (first match), `save` on an existing document replaces the document
  with the same `_id`, `save` on a new document appends;
- the outcome of `resend.emails.send` is a boolean parameter
  `emailSendOk` (`false` models the throwing path caught inside
  `sendVerificationEmail`).
-/

/-- A message subdocument (interface `Message` in src/model/user.ts). -/
structure Message where
  content : String
  createdAt : Nat
deriving Repr, DecidableEq

/-- A user document (interface `User` in src/model/user.ts); `_id` is the
identifier mongoose assigns at creation. `password` stores the bcrypt
hash. -/
structure User where
  _id : String
  username : String
  email : String
  password : String
  verifyCode : String
  verifyCodeExpiry : Nat
  isVerified : Bool
  isAcceptingMessages : Bool
  messages : List Message
deriving Repr, DecidableEq

/-- The MongoDB user collection. -/
abbrev Store := List User

/-- `UserModel.findOne({ username, isVerified: true })` from the sign-up
route. -/
def findVerifiedByUsername (store : Store) (username : String) : Option User :=
  store.find? fun u => u.username == username && u.isVerified

/-- `UserModel.findOne({ email })` from the sign-up route. -/
def findByEmail (store : Store) (email : String) : Option User :=
  store.find? fun u => u.email == email

/-- `UserModel.findOne({ $or: [{email: identifier}, {username: identifier}] })`
from `authorize`. -/
def findByIdentifier (store : Store) (identifier : String) : Option User :=
  store.find? fun u => u.email == identifier || u.username == identifier

/-- `doc.save()` for a document already in the collection: replace the
document with the same `_id`. -/
def saveUser (store : Store) (u : User) : Store :=
  store.map fun v => if v._id == u._id then u else v

/-- `Math.floor(100000 + Math.random() * 900000)` with `Math.random() = q`. -/
def genVerifyCode (q : ℚ) : Nat :=
  (⌊(100000 : ℚ) + q * 900000⌋).toNat

/-- `.toString()` applied to the generated code. -/
def genVerifyCodeStr (q : ℚ) : String :=
  toString (genVerifyCode q)

/-- The `ApiResponse` shape returned by `sendVerificationEmail`. -/
structure ApiResponse where
  success : Bool
  message : String
  isAcceptingMessages : Bool
deriving Repr, DecidableEq

/-- `sendVerificationEmail` (src/helpers/sendVerificationEmail.ts):
`sendOk = false` models `resend.emails.send` throwing, caught inside. -/
def sendVerificationEmail (sendOk : Bool) : ApiResponse :=
  if sendOk then
    { success := true
      message := "Verification email sent successfully"
      isAcceptingMessages := true }
  else
    { success := false
      message := "Failed to send verification email"
      isAcceptingMessages := false }

/-- The JSON body plus HTTP status of a `Response.json` reply from the
sign-up route. -/
structure RouteResponse where
  success : Bool
  message : String
  status : Nat
deriving Repr, DecidableEq

/-- The new user constructed on the fresh-registration path of the sign-up
route: `new UserModel({... isVerified: false, isAcceptingMessages: true,
messages: []})`. `expiryDate.setHours(expiryDate.getHours() + 1)` is one
hour (3600000 ms) after `now`. -/
def newUserOf (hash : String → String) (q : ℚ) (now : Nat)
    (freshId username email password : String) : User :=
  { _id := freshId
    username := username
    email := email
    password := hash password
    verifyCode := genVerifyCodeStr q
    verifyCodeExpiry := now + 3600000
    isVerified := false
    isAcceptingMessages := true
    messages := [] }

/-- The sign-up route handler `POST`: username-conflict check, email
lookup, re-registration update or fresh insert, then email dispatch.
Returns the route response together with the collection after the
request. -/
def signUpPOST (hash : String → String) (q : ℚ) (now : Nat)
    (emailSendOk : Bool) (freshId : String) (store : Store)
    (username email password : String) : RouteResponse × Store :=
  match findVerifiedByUsername store username with
  | some _ =>
      ({ success := false, message := "Username is already taken", status := 400 }, store)
  | none =>
      let verifyCode := genVerifyCodeStr q
      match findByEmail store email with
      | some existingUserByEmail =>
          if existingUserByEmail.isVerified then
            ({ success := false, message := "User already exists with this email", status := 400 },
              store)
          else
            let updated := { existingUserByEmail with
              password := hash password
              verifyCode := verifyCode
              verifyCodeExpiry := now + 3600000 }
            let store1 := saveUser store updated
            let emailResponse := sendVerificationEmail emailSendOk
            if emailResponse.success then
              ({ success := true
                 message := "User registered successfully. Please verify your account."
                 status := 201 }, store1)
            else
              ({ success := false, message := emailResponse.message, status := 500 }, store1)
      | none =>
          let store1 := store ++ [newUserOf hash q now freshId username email password]
          let emailResponse := sendVerificationEmail emailSendOk
          if emailResponse.success then
            ({ success := true
               message := "User registered successfully. Please verify your account."
               status := 201 }, store1)
          else
            ({ success := false, message := emailResponse.message, status := 500 }, store1)

/-- Outcome of the credentials `authorize` function: the returned user
object, or the message of the thrown `Error`. -/
inductive AuthOutcome where
  | user (u : User)
  | error (msg : String)
deriving Repr, DecidableEq

/-- The `authorize` function of the credentials provider: identifier
lookup, verification check, then bcrypt comparison. -/
def authorize (compare : String → String → Bool) (store : Store)
    (identifier password : String) : AuthOutcome :=
  match findByIdentifier store identifier with
  | none => .error "User not found"
  | some user =>
      if !user.isVerified then .error "Please verify your email to login"
      else if !(compare password user.password) then .error "Invalid credentials"
      else .user user

/-- The JWT token as the `jwt` callback sees it: the four custom claims,
each possibly absent. -/
structure Token where
  _id : Option String
  isVerified : Option Bool
  isAcceptingMessages : Option Bool
  username : Option String
deriving Repr, DecidableEq

/-- The `session.user` object populated by the `session` callback. -/
structure SessionUser where
  _id : Option String
  isVerified : Option Bool
  isAcceptingMessages : Option Bool
  username : Option String
deriving Repr, DecidableEq

/-- The session object handed to the `session` callback. -/
structure Session where
  user : SessionUser
deriving Repr, DecidableEq

/-- The `jwt` callback: when a user object is present (initial sign-in),
copy `_id`, `isVerified`, `isAcceptingMessages`, `username` from the user
into the token; otherwise return the token unchanged. -/
def jwtCallback (token : Token) (user : Option User) : Token :=
  match user with
  | some u =>
      { token with
        _id := some u._id
        isVerified := some u.isVerified
        isAcceptingMessages := some u.isAcceptingMessages
        username := some u.username }
  | none => token

/-- The `session` callback: copy the four custom claims from the token
onto `session.user`. -/
def sessionCallback (session : Session) (token : Token) : Session :=
  { session with
    user := { session.user with
      _id := token._id
      isVerified := token.isVerified
      isAcceptingMessages := token.isAcceptingMessages
      username := token.username } }

/-- Default values declared by the mongoose `UserSchema`
(src/model/user.ts): `isVerified: false`, `isAcceptingMessages: false`,
`messages: []`. -/
structure UserSchemaDefaults where
  isVerified : Bool
  isAcceptingMessages : Bool
  messages : List Message
deriving Repr, DecidableEq

/-- The concrete defaults written in the schema. -/
def userSchemaDefaults : UserSchemaDefaults :=
  { isVerified := false, isAcceptingMessages := false, messages := [] }

/-- `verifySchema` (src/schemas/verifySchema.ts):
`z.object({ code: z.string().min(6, ...) })` — a zod string with `.min(6)`
accepts exactly the strings of length at least 6. -/
def verifySchemaAccepts (code : String) : Bool :=
  6 ≤ code.length

/-! Concrete fixtures used by counterexamples and witnesses. -/

/-- A concrete stand-in for `bcrypt.hash`: prepends a marker. -/
def hashEx (plaintext : String) : String := "h:" ++ plaintext

/-- A concrete stand-in for `bcrypt.compare`, consistent with `hashEx`. -/
def cmpEq (plaintext digest : String) : Bool := digest == "h:" ++ plaintext

/-- A verified demo account. -/
def alice : User :=
  { _id := "a1", username := "alice", email := "a@x.com"
    password := "h:secret12", verifyCode := "123456", verifyCodeExpiry := 1000
    isVerified := true, isAcceptingMessages := true, messages := [] }

/-- An unverified demo account. -/
def bobUnverified : User :=
  { _id := "b1", username := "bob", email := "b@x.com"
    password := "h:hunter22", verifyCode := "654321", verifyCodeExpiry := 2000
    isVerified := false, isAcceptingMessages := false, messages := [] }

/-- A demo collection holding one verified and one unverified account. -/
def demoStore : Store := [alice, bobUnverified]

/-! Theorems. -/

/-- Claim C1, counterexample: the two failure runs of `authorize` are NOT
externally indistinguishable. With the same store, a lookup miss fails
with message "User not found" while a password mismatch on a verified
account fails with message "Invalid credentials"; the two outcomes
differ. -/
theorem authorize_failure_messages_differ :
    authorize cmpEq demoStore "carol" "pw123456" = .error "User not found" ∧
    authorize cmpEq demoStore "alice" "wrongpass" = .error "Invalid credentials" ∧
    authorize cmpEq demoStore "carol" "pw123456" ≠
      authorize cmpEq demoStore "alice" "wrongpass" := by
  refine ⟨by decide, by decide, by decide⟩

/-- Claim C1, amended: when no account matches the identifier, `authorize`
fails with message "User not found"; when a verified account matches but
the password does not verify against its stored hash, it fails with
message "Invalid credentials". The two failures carry distinct messages
and are therefore externally distinguishable. -/
theorem authorize_failure_messages_amended
    (compare : String → String → Bool) (store : Store)
    (identifier password : String) :
    (findByIdentifier store identifier = none →
      authorize compare store identifier password = .error "User not found") ∧
    (∀ u, findByIdentifier store identifier = some u → u.isVerified = true →
      compare password u.password = false →
      authorize compare store identifier password = .error "Invalid credentials") := by
  constructor
  · intro h
    simp [authorize, h]
  · intro u h hv hc
    simp [authorize, h, hv, hc]

/-- Witness for the amended claim C1 at concrete inputs. -/
theorem authorize_failure_messages_amended_witness :
    authorize cmpEq demoStore "carol" "pw123456" = .error "User not found" ∧
    authorize cmpEq demoStore "alice" "badpass99" = .error "Invalid credentials" :=
  ⟨(authorize_failure_messages_amended cmpEq demoStore "carol" "pw123456").1 (by decide),
   (authorize_failure_messages_amended cmpEq demoStore "alice" "badpass99").2
      alice (by decide) (by decide) (by decide)⟩

/-- Claim C7: for every account matching the login identifier with
`isVerified = false`, `authorize` fails with the not-verified message
("Please verify your email to login", the NotVerified failure) for every
submitted password and every comparison function — the verification check
is decided before the password is compared. -/
theorem authorize_notVerified_before_password
    (compare : String → String → Bool) (store : Store)
    (identifier password : String) (u : User)
    (h : findByIdentifier store identifier = some u)
    (hv : u.isVerified = false) :
    authorize compare store identifier password =
      .error "Please verify your email to login" := by
  simp [authorize, h, hv]

/-- Witness for claim C7: the correct password on the unverified demo
account still fails with the not-verified message. -/
theorem authorize_notVerified_before_password_witness :
    authorize cmpEq demoStore "bob" "hunter22" =
      .error "Please verify your email to login" :=
  authorize_notVerified_before_password cmpEq demoStore "bob" "hunter22"
    bobUnverified (by decide) (by decide)

/-- Claim C4: after sign-in the `jwt` callback places exactly the claim
set accountId (`_id`), `username`, `isVerified`, `isAcceptingMessages`
from the account into the token, and the `session` callback applied to
that token reproduces exactly that claim set on the session user,
unchanged — for every account, every prior token and every prior
session. -/
theorem session_token_claims_roundtrip (u : User) (t : Token) (s : Session) :
    (jwtCallback t (some u))._id = some u._id ∧
    (jwtCallback t (some u)).username = some u.username ∧
    (jwtCallback t (some u)).isVerified = some u.isVerified ∧
    (jwtCallback t (some u)).isAcceptingMessages = some u.isAcceptingMessages ∧
    (sessionCallback s (jwtCallback t (some u))).user =
      { _id := some u._id, isVerified := some u.isVerified
        isAcceptingMessages := some u.isAcceptingMessages
        username := some u.username } :=
  ⟨rfl, rfl, rfl, rfl, rfl⟩

/-- Claim C5: when a verified account already owns the username, the
sign-up route answers "Username is already taken" with status 400 and the
collection is unchanged — for every submitted email and password, so the
username check is decided before any email lookup or write. -/
theorem signUp_usernameTaken (hash : String → String) (q : ℚ) (now : Nat)
    (emailSendOk : Bool) (freshId : String) (store : Store)
    (username email password : String) (w : User)
    (h : findVerifiedByUsername store username = some w) :
    signUpPOST hash q now emailSendOk freshId store username email password =
      ({ success := false, message := "Username is already taken", status := 400 },
        store) := by
  simp [signUpPOST, h]

/-- Witness for claim C5 at concrete inputs. -/
theorem signUp_usernameTaken_witness :
    signUpPOST hashEx 0 5000 true "n1" demoStore "alice" "fresh@x.com" "newpass99" =
      ({ success := false, message := "Username is already taken", status := 400 },
        demoStore) :=
  signUp_usernameTaken hashEx 0 5000 true "n1" demoStore "alice" "fresh@x.com"
    "newpass99" alice (by decide)

/-- Claim C6: when no verified account owns the username but the email
already belongs to a verified account, the sign-up route answers "User
already exists with this email" with status 400 and the collection is
unchanged. -/
theorem signUp_emailTaken (hash : String → String) (q : ℚ) (now : Nat)
    (emailSendOk : Bool) (freshId : String) (store : Store)
    (username email password : String) (u : User)
    (h1 : findVerifiedByUsername store username = none)
    (h2 : findByEmail store email = some u)
    (h3 : u.isVerified = true) :
    signUpPOST hash q now emailSendOk freshId store username email password =
      ({ success := false, message := "User already exists with this email", status := 400 },
        store) := by
  simp [signUpPOST, h1, h2, h3]

/-- Witness for claim C6 at concrete inputs. -/
theorem signUp_emailTaken_witness :
    signUpPOST hashEx 0 5000 true "n1" demoStore "dave" "a@x.com" "newpass99" =
      ({ success := false, message := "User already exists with this email", status := 400 },
        demoStore) :=
  signUp_emailTaken hashEx 0 5000 true "n1" demoStore "dave" "a@x.com" "newpass99"
    alice (by decide) (by decide) (by decide)

/-- Claim C9: the default for `isAcceptingMessages` is inconsistent
between the two call sites — the mongoose `UserSchema` declares `false`
while the sign-up route constructs every new account with `true`. -/
theorem isAcceptingMessages_default_mismatch (hash : String → String)
    (q : ℚ) (now : Nat) (freshId username email password : String) :
    userSchemaDefaults.isAcceptingMessages = false ∧
    (newUserOf hash q now freshId username email password).isAcceptingMessages = true ∧
    (newUserOf hash q now freshId username email password).isAcceptingMessages ≠
      userSchemaDefaults.isAcceptingMessages :=
  ⟨rfl, rfl, by simp [newUserOf, userSchemaDefaults]⟩

/-- Claim C10: `verifySchema` accepts every code string of length at
least 6, so every string of length 7 or more also validates even though
issued codes are exactly 6 digits. -/
theorem verifySchema_accepts_length_ge_six (s : String) (h : 7 ≤ s.length) :
    verifySchemaAccepts s = true ∧ s.length ≠ 6 := by
  constructor
  · simp only [verifySchemaAccepts, decide_eq_true_eq]
    omega
  · omega

/-- Witness for claim C10: a 7-character code passes validation. -/
theorem verifySchema_accepts_length_ge_six_witness :
    verifySchemaAccepts "1234567" = true ∧ "1234567".length ≠ 6 :=
  verifySchema_accepts_length_ge_six "1234567" (by decide)

/-- Lower bound of the generated code when `0 ≤ Math.random() < 1`. -/
theorem genVerifyCode_lower (q : ℚ) (h0 : 0 ≤ q) : 100000 ≤ genVerifyCode q := by
  unfold genVerifyCode
  have hfl : (100000 : ℤ) ≤ ⌊(100000 : ℚ) + q * 900000⌋ := by
    refine Int.le_floor.mpr ?_
    push_cast
    nlinarith
  have hz : (0 : ℤ) ≤ ⌊(100000 : ℚ) + q * 900000⌋ := le_trans (by norm_num) hfl
  exact (Int.le_toNat hz).mpr hfl

/-- Upper bound of the generated code when `0 ≤ Math.random() < 1`. -/
theorem genVerifyCode_upper (q : ℚ) (h1 : q < 1) : genVerifyCode q ≤ 999999 := by
  unfold genVerifyCode
  have hfl : ⌊(100000 : ℚ) + q * 900000⌋ < (1000000 : ℤ) := by
    refine Int.floor_lt.mpr ?_
    push_cast
    nlinarith
  refine Int.toNat_le.mpr ?_
  omega

/-- The generated code has exactly 6 decimal digits. -/
theorem genVerifyCode_digits (q : ℚ) (h0 : 0 ≤ q) (h1 : q < 1) :
    (Nat.digits 10 (genVerifyCode q)).length = 6 := by
  have hlo := genVerifyCode_lower q h0
  have hhi := genVerifyCode_upper q h1
  have hlog : Nat.log 10 (genVerifyCode q) = 5 :=
    Nat.log_eq_of_pow_le_of_lt_pow (by norm_num; omega) (by norm_num; omega)
  rw [Nat.digits_len 10 (genVerifyCode q) (by norm_num) (by omega), hlog]

/-- Claim C3: with no verified owner of the username and no account on
the email, sign-up (with successful email dispatch) answers success with
status 201, appends exactly the new account, and that account has
`isVerified = false`, a verification code whose value lies in
[100000, 999999] and has exactly 6 decimal digits, and an expiry exactly
one hour (3600000 ms) after the creation instant. -/
theorem signUp_fresh_registration_correct (hash : String → String) (q : ℚ)
    (now : Nat) (freshId : String) (store : Store)
    (username email password : String)
    (h1 : findVerifiedByUsername store username = none)
    (h2 : findByEmail store email = none)
    (hq0 : 0 ≤ q) (hq1 : q < 1) :
    (signUpPOST hash q now true freshId store username email password).1 =
      { success := true
        message := "User registered successfully. Please verify your account."
        status := 201 } ∧
    (signUpPOST hash q now true freshId store username email password).2 =
      store ++ [newUserOf hash q now freshId username email password] ∧
    (newUserOf hash q now freshId username email password).isVerified = false ∧
    (newUserOf hash q now freshId username email password).verifyCode =
      genVerifyCodeStr q ∧
    (newUserOf hash q now freshId username email password).verifyCodeExpiry =
      now + 3600000 ∧
    100000 ≤ genVerifyCode q ∧ genVerifyCode q ≤ 999999 ∧
    (Nat.digits 10 (genVerifyCode q)).length = 6 := by
  refine ⟨?_, ?_, rfl, rfl, rfl, genVerifyCode_lower q hq0,
    genVerifyCode_upper q hq1, genVerifyCode_digits q hq0 hq1⟩
  · simp [signUpPOST, h1, h2, sendVerificationEmail]
  · simp [signUpPOST, h1, h2, sendVerificationEmail]

/-- Witness for claim C3 on an empty collection with the random draw
fixed at one half. -/
theorem signUp_fresh_registration_correct_witness :
    (signUpPOST hashEx (1/2) 5000 true "n1" [] "carol" "c@x.com" "newpass99").1 =
      { success := true
        message := "User registered successfully. Please verify your account."
        status := 201 } ∧
    (signUpPOST hashEx (1/2) 5000 true "n1" [] "carol" "c@x.com" "newpass99").2 =
      [] ++ [newUserOf hashEx (1/2) 5000 "n1" "carol" "c@x.com" "newpass99"] ∧
    (newUserOf hashEx (1/2) 5000 "n1" "carol" "c@x.com" "newpass99").isVerified = false ∧
    (newUserOf hashEx (1/2) 5000 "n1" "carol" "c@x.com" "newpass99").verifyCode =
      genVerifyCodeStr (1/2) ∧
    (newUserOf hashEx (1/2) 5000 "n1" "carol" "c@x.com" "newpass99").verifyCodeExpiry =
      5000 + 3600000 ∧
    100000 ≤ genVerifyCode (1/2) ∧ genVerifyCode (1/2) ≤ 999999 ∧
    (Nat.digits 10 (genVerifyCode (1/2))).length = 6 :=
  signUp_fresh_registration_correct hashEx (1/2) 5000 "n1" [] "carol" "c@x.com"
    "newpass99" (by decide) (by decide) (by norm_num) (by norm_num)


/-- The in-place rewrite the sign-up route performs on an existing
unverified account: overwrite `password` (with the new hash),
`verifyCode` and `verifyCodeExpiry`; every other field is carried over by
the record update. -/
def reRegisteredUser (hash : String → String) (q : ℚ) (now : Nat)
    (password : String) (u : User) : User :=
  { u with
    password := hash password
    verifyCode := genVerifyCodeStr q
    verifyCodeExpiry := now + 3600000 }

/-- Claim C2: re-registering an email held by an unverified account (with
the username check passing) updates that account in place, overwriting
exactly `password` (the hash), `verifyCode` and `verifyCodeExpiry`; the
rewrite keeps `_id`, `username`, `email`, `isAcceptingMessages`,
`messages` and `isVerified` (still false) unchanged, and the collection
is otherwise untouched (`saveUser` replaces only that document). -/
theorem signUp_reRegistration_frame (hash : String → String) (q : ℚ)
    (now : Nat) (emailSendOk : Bool) (freshId : String) (store : Store)
    (username email password : String) (u : User)
    (h1 : findVerifiedByUsername store username = none)
    (h2 : findByEmail store email = some u)
    (h3 : u.isVerified = false) :
    (signUpPOST hash q now emailSendOk freshId store username email password).2 =
      saveUser store (reRegisteredUser hash q now password u) ∧
    (reRegisteredUser hash q now password u)._id = u._id ∧
    (reRegisteredUser hash q now password u).username = u.username ∧
    (reRegisteredUser hash q now password u).email = u.email ∧
    (reRegisteredUser hash q now password u).isAcceptingMessages =
      u.isAcceptingMessages ∧
    (reRegisteredUser hash q now password u).messages = u.messages ∧
    (reRegisteredUser hash q now password u).isVerified = false := by
  refine ⟨?_, rfl, rfl, rfl, rfl, rfl, h3⟩
  cases emailSendOk <;>
    simp [signUpPOST, h1, h2, h3, sendVerificationEmail, reRegisteredUser]

/-- Witness for claim C2: re-registering the unverified demo account. -/
theorem signUp_reRegistration_frame_witness :
    (signUpPOST hashEx 0 5000 true "n1" demoStore "dave" "b@x.com" "newpass99").2 =
      saveUser demoStore (reRegisteredUser hashEx 0 5000 "newpass99" bobUnverified) ∧
    (reRegisteredUser hashEx 0 5000 "newpass99" bobUnverified)._id = bobUnverified._id ∧
    (reRegisteredUser hashEx 0 5000 "newpass99" bobUnverified).username =
      bobUnverified.username ∧
    (reRegisteredUser hashEx 0 5000 "newpass99" bobUnverified).email =
      bobUnverified.email ∧
    (reRegisteredUser hashEx 0 5000 "newpass99" bobUnverified).isAcceptingMessages =
      bobUnverified.isAcceptingMessages ∧
    (reRegisteredUser hashEx 0 5000 "newpass99" bobUnverified).messages =
      bobUnverified.messages ∧
    (reRegisteredUser hashEx 0 5000 "newpass99" bobUnverified).isVerified = false :=
  signUp_reRegistration_frame hashEx 0 5000 true "n1" demoStore "dave" "b@x.com"
    "newpass99" bobUnverified (by decide) (by decide) (by decide)

/-- Claim C8: when the conflict checks pass but email dispatch fails, the
sign-up route answers failure (status 500, the dispatch failure message)
even though the account write has already committed: an account holding
the submitted email, the freshly generated code and the new expiry is in
the collection returned by the failed request. -/
theorem signUp_email_dispatch_failure_after_commit (hash : String → String)
    (q : ℚ) (now : Nat) (freshId : String) (store : Store)
    (username email password : String)
    (h1 : findVerifiedByUsername store username = none)
    (h2 : ∀ u, findByEmail store email = some u → u.isVerified = false) :
    (signUpPOST hash q now false freshId store username email password).1 =
      { success := false, message := "Failed to send verification email", status := 500 } ∧
    ∃ u' ∈ (signUpPOST hash q now false freshId store username email password).2,
      u'.email = email ∧ u'.verifyCode = genVerifyCodeStr q ∧
      u'.verifyCodeExpiry = now + 3600000 := by
  cases hfe : findByEmail store email with
  | none =>
      refine ⟨by simp [signUpPOST, h1, hfe, sendVerificationEmail], ?_⟩
      refine ⟨newUserOf hash q now freshId username email password, ?_, rfl, rfl, rfl⟩
      simp [signUpPOST, h1, hfe, sendVerificationEmail]
  | some u =>
      have hu : u.isVerified = false := h2 u hfe
      have hfe' : store.find? (fun v => v.email == email) = some u := by
        simpa [findByEmail] using hfe
      have hmem : u ∈ store := List.mem_of_find?_eq_some hfe'
      have hemail : u.email = email := by
        have hp := List.find?_some hfe'
        simpa using hp
      have hstore :
          (signUpPOST hash q now false freshId store username email password).2 =
            saveUser store (reRegisteredUser hash q now password u) := by
        simp [signUpPOST, h1, hfe, hu, sendVerificationEmail, reRegisteredUser]
      refine ⟨by simp [signUpPOST, h1, hfe, hu, sendVerificationEmail], ?_⟩
      refine ⟨reRegisteredUser hash q now password u, ?_, ?_, rfl, rfl⟩
      · rw [hstore]
        unfold saveUser
        refine List.mem_map.mpr ⟨u, hmem, ?_⟩
        simp [reRegisteredUser]
      · exact hemail

/-- Witness for claim C8: failed dispatch on a re-registration of the
unverified demo account still leaves the rewritten account stored. -/
theorem signUp_email_dispatch_failure_after_commit_witness :
    (signUpPOST hashEx 0 5000 false "n1" demoStore "dave" "b@x.com" "newpass99").1 =
      { success := false, message := "Failed to send verification email", status := 500 } ∧
    ∃ u' ∈ (signUpPOST hashEx 0 5000 false "n1" demoStore "dave" "b@x.com" "newpass99").2,
      u'.email = "b@x.com" ∧ u'.verifyCode = genVerifyCodeStr 0 ∧
      u'.verifyCodeExpiry = 5000 + 3600000 :=
  signUp_email_dispatch_failure_after_commit hashEx 0 5000 "n1" demoStore "dave"
    "b@x.com" "newpass99" (by decide)
    (fun u h => by
      have hb : findByEmail demoStore "b@x.com" = some bobUnverified := by decide
      rw [hb] at h
      cases h
      rfl)
